import Mathlib

/-!
Verification of `src/tools/release/publish-release.ts` (Angular Material
release-publishing script).

The script is a linear, interactive workflow.  We embed it shallowly: every
external collaborator answer (git state, prompt answers, npm results, package
checks) is a field of an `Env` record, and the workflow `runTask` is a pure
function from `Env` to the ordered list of observable actions it performs
(`Event` trace) together with its termination behaviour (`Option Nat`:
`some c` means `process.exit(c)` was called, `none` means the script ran to
completion, in which case the node process exits with code 0).
-/

namespace PublishRelease

/-- Modelled from the spec: `Version` (from `version-name/parse-version`, not in
the sources) is "parsed semantic version (major, minor, patch, optional
pre-release label)".  Only `prereleaseLabel` and the formatted name are used by
`publish-release.ts`. -/
structure Version where
  major : Nat
  minor : Nat
  patch : Nat
  prereleaseLabel : Option String
deriving Repr, DecidableEq

/-- Modelled from the spec: the formatted version name used for the release tag
(e.g. "5.0.0", with the pre-release label appended when present). -/
def Version.format (v : Version) : String :=
  toString v.major ++ "." ++ toString v.minor ++ "." ++ toString v.patch ++
    (match v.prereleaseLabel with
      | some label => "-" ++ label
      | none => "")

/-- Environment of one run: every answer the workflow receives from its
collaborators (file system, git, prompts, npm, validators).  Fields not
corresponding to code in `src/` are modelled from the spec (§6 external
interfaces):
* `parsedVersion` — the result of `parseVersionName(packageJson.version)`
  (`Option` for the TS `Version | null`);
* `hasUncommittedChanges`, `switchSucceeds`, `localMatchesUpstream` — outcomes
  of the `BaseReleaseTask` checks (dirty tree, branch switch, upstream match);
* `releasePackages` — the static, ordered package list
  (`release-output/release-packages`);
* `checkPackage` — `checkReleasePackage(releaseOutputPath, name)`;
* `npmAuthenticated`, `loginResult i` — `isNpmAuthenticated()` and the result
  of the `i`-th `runInteractiveNpmLogin()` call;
* `publishErrorOutput` — the error output of `runNpmPublish` per package;
* prompt answers `npmDistTag`, `confirmStableNext`, `confirmPublish`. -/
structure Env where
  parsedVersion : Option Version
  hasUncommittedChanges : Bool
  switchSucceeds : Bool
  commitTitle : String
  localMatchesUpstream : Bool
  npmDistTag : String
  confirmStableNext : Bool
  releasePackages : List String
  checkPackage : String → Bool
  npmAuthenticated : Bool
  loginResult : Nat → Bool
  confirmPublish : Bool
  publishErrorOutput : String → String

/-- The observable actions of a run, in order. -/
inductive Event where
  /-- `switchToPublishBranch` succeeded. -/
  | switchBranch
  /-- `promptForNpmDistTag` was issued. -/
  | promptDistTag
  /-- the extra stable-version-to-next confirmation prompt was issued. -/
  | promptStableNext
  /-- `buildReleasePackages` ran (gulp clean + build). -/
  | build
  /-- `checkReleasePackage` was evaluated for this package. -/
  | checkPkg (name : String)
  /-- `git.createTag(ref, tagName, message)` was called. -/
  | createTag (ref tagName : String)
  /-- a tag-removal git operation (never performed by the script). -/
  | deleteTag (tagName : String)
  /-- `checkNpmAuthentication` started. -/
  | checkAuth
  /-- the `i`-th `runInteractiveNpmLogin()` call. -/
  | loginAttempt (i : Nat)
  /-- the final "Are you sure that you want to release now?" prompt. -/
  | promptConfirmPublish
  /-- `runNpmPublish` was invoked for this package. -/
  | npmPublish (pkg : String)
deriving Repr, DecidableEq

/-- Trace plus termination: `exitCode = some c` models `process.exit(c)`,
`none` models falling off the end of `run()` (node exits 0). -/
structure RunResult where
  trace : List Event
  exitCode : Option Nat
deriving Repr, DecidableEq

/-- `const MAX_NPM_LOGIN_TRIES = 2;` -/
def MAX_NPM_LOGIN_TRIES : Nat := 2

/-- `/chore: bump version/.test(title)`: the regex is a plain literal with no
anchors or metacharacters, so `.test` is an (unanchored) substring search. -/
def versionBumpMatches (title : String) : Bool :=
  decide ("chore: bump version".toList <:+: title.toList)

/-- The `for (let i = 0; i < MAX_NPM_LOGIN_TRIES; i++)` loop body of
`checkNpmAuthentication`: runs `runInteractiveNpmLogin()`, breaking on success,
otherwise setting `failedAuthentication = true` and retrying.  Arguments:
remaining iterations, current index `i`, current `failedAuthentication`.
Returns the login events performed and the final `failedAuthentication`. -/
def npmLoginLoop (login : Nat → Bool) : Nat → Nat → Bool → List Event × Bool
  | 0, _, failed => ([], failed)
  | fuel + 1, i, failed =>
    if login i then
      ([Event.loginAttempt i], failed)
    else
      let rest := npmLoginLoop login fuel (i + 1) true
      (Event.loginAttempt i :: rest.1, rest.2)

/-- `checkNpmAuthentication()`: if `isNpmAuthenticated()` returns early;
otherwise runs the login loop and calls `process.exit(1)` iff
`failedAuthentication` is set after the loop. -/
def checkNpmAuthentication (env : Env) : List Event × Option Nat :=
  if env.npmAuthenticated then
    ([Event.checkAuth], none)
  else
    let r := npmLoginLoop env.loginResult MAX_NPM_LOGIN_TRIES 0 false
    (Event.checkAuth :: r.1, if r.2 then some 1 else none)

/-- `checkReleaseOutput()`: `releasePackages.forEach` evaluating
`checkReleasePackage` for every package (setting `hasFailed` on each failure),
then `process.exit(1)` iff `hasFailed`. -/
def checkReleaseOutput (env : Env) : List Event × Option Nat :=
  let hasFailed := env.releasePackages.foldl
    (fun hasFailed packageName =>
      if env.checkPackage packageName then hasFailed else true) false
  (env.releasePackages.map Event.checkPkg, if hasFailed then some 1 else none)

/-- `publishPackageToNpm(packageName, npmDistTag)`: runs `runNpmPublish` and
calls `process.exit(1)` iff the captured error output is non-empty (JS string
truthiness). -/
def publishPackageToNpm (env : Env) (packageName : String) : Option Nat :=
  if env.publishErrorOutput packageName ≠ "" then some 1 else none

/-- The `for (let packageName of releasePackages)` publish loop of `run()`. -/
def publishLoop (env : Env) : List String → List Event × Option Nat
  | [] => ([], none)
  | p :: rest =>
    match publishPackageToNpm env p with
    | some c => ([Event.npmPublish p], some c)
    | none =>
      let r := publishLoop env rest
      (Event.npmPublish p :: r.1, r.2)

/-- The tail of `run()` from `this.buildReleasePackages()` on: build, output
validation, tag creation, npm authentication, final confirmation, publish
loop.  `newVersion` is the parsed version, `t` the trace so far. -/
def afterPrompts (env : Env) (newVersion : Version) (t : List Event) :
    RunResult :=
  let t := t ++ [Event.build]
  let co := checkReleaseOutput env
  let t := t ++ co.1
  match co.2 with
  | some c => ⟨t, some c⟩
  | none =>
    let t := t ++ [Event.createTag "HEAD" newVersion.format]
    let auth := checkNpmAuthentication env
    let t := t ++ auth.1
    match auth.2 with
    | some c => ⟨t, some c⟩
    | none =>
      let t := t ++ [Event.promptConfirmPublish]
      if env.confirmPublish then
        let pub := publishLoop env env.releasePackages
        ⟨t ++ pub.1, pub.2⟩
      else
        ⟨t, some 0⟩

/-- One full run of the script: the `PublishReleaseTask` constructor (version
parse check) followed by `run()` in source order: uncommitted-changes check,
publish-branch switch, version-bump commit check, upstream check, dist-tag
prompt, conditional stable-to-next confirmation, then `afterPrompts`. -/
def runTask (env : Env) : RunResult :=
  match env.parsedVersion with
  | none => ⟨[], some 1⟩
  | some newVersion =>
    if env.hasUncommittedChanges then ⟨[], some 1⟩
    else if env.switchSucceeds then
      let t := [Event.switchBranch]
      if versionBumpMatches env.commitTitle then
        if env.localMatchesUpstream then
          let t := t ++ [Event.promptDistTag]
          if env.npmDistTag == "next" && newVersion.prereleaseLabel.isNone then
            let t := t ++ [Event.promptStableNext]
            if env.confirmStableNext then afterPrompts env newVersion t
            else ⟨t, some 0⟩
          else
            afterPrompts env newVersion t
        else ⟨t, some 1⟩
      else ⟨t, some 1⟩
    else ⟨[], some 1⟩

/-- The packages for which `runNpmPublish` was invoked during a trace, in
order. -/
def publishedPackages (t : List Event) : List String :=
  t.filterMap (fun e =>
    match e with
    | Event.npmPublish p => some p
    | _ => none)

/-! ### Helper lemmas: normal forms for each stage -/

lemma checkReleaseOutput_foldl (check : String → Bool) (l : List String)
    (b : Bool) :
    l.foldl (fun hasFailed p => !check p || hasFailed) b
      = (b || l.any (fun p => !check p)) := by
  induction l generalizing b with
  | nil => simp
  | cons p rest ih =>
    rw [List.foldl_cons, ih, List.any_cons]
    cases check p <;> cases b <;> simp

lemma checkReleaseOutput_eq (env : Env) :
    checkReleaseOutput env =
      (env.releasePackages.map Event.checkPkg,
        if env.releasePackages.any (fun p => !env.checkPackage p) then some 1
        else none) := by
  simp [checkReleaseOutput, checkReleaseOutput_foldl]

lemma checkNpmAuthentication_eq (env : Env) :
    checkNpmAuthentication env =
      if env.npmAuthenticated then ([Event.checkAuth], none)
      else if env.loginResult 0 then
        ([Event.checkAuth, Event.loginAttempt 0], none)
      else
        ([Event.checkAuth, Event.loginAttempt 0, Event.loginAttempt 1],
          some 1) := by
  by_cases h0 : env.npmAuthenticated = true
  · simp [checkNpmAuthentication, h0]
  · by_cases h1 : env.loginResult 0 = true <;>
      by_cases h2 : env.loginResult 1 = true <;>
      simp [checkNpmAuthentication, npmLoginLoop, MAX_NPM_LOGIN_TRIES, h0, h1,
        h2]

lemma publishLoop_trace_shape (env : Env) (l : List String) :
    ∀ e ∈ (publishLoop env l).1, ∃ p, e = Event.npmPublish p := by
  induction l with
  | nil => simp [publishLoop]
  | cons p rest ih =>
    intro e he
    by_cases h : env.publishErrorOutput p = ""
    · simp [publishLoop, publishPackageToNpm, h] at he
      rcases he with he | he
      · exact ⟨p, he⟩
      · exact ih e he
    · simp [publishLoop, publishPackageToNpm, h] at he
      exact ⟨p, he⟩

lemma publishLoop_exit (env : Env) (l : List String) :
    (publishLoop env l).2 = none ∨ (publishLoop env l).2 = some 1 := by
  induction l with
  | nil => simp [publishLoop]
  | cons p rest ih =>
    by_cases h : env.publishErrorOutput p = ""
    · simpa [publishLoop, publishPackageToNpm, h] using ih
    · simp [publishLoop, publishPackageToNpm, h]

lemma publishLoop_all_ok (env : Env) (l : List String)
    (h : ∀ p ∈ l, env.publishErrorOutput p = "") :
    publishLoop env l = (l.map Event.npmPublish, none) := by
  induction l with
  | nil => simp [publishLoop]
  | cons p rest ih =>
    have hp : env.publishErrorOutput p = "" := h p (by simp)
    have := ih (fun q hq => h q (by simp [hq]))
    simp [publishLoop, publishPackageToNpm, hp, this]

lemma publishLoop_first_bad (env : Env) (good : List String) (bad : String)
    (rest : List String) (hgood : ∀ p ∈ good, env.publishErrorOutput p = "")
    (hbad : env.publishErrorOutput bad ≠ "") :
    publishLoop env (good ++ bad :: rest)
      = ((good ++ [bad]).map Event.npmPublish, some 1) := by
  induction good with
  | nil => simp [publishLoop, publishPackageToNpm, hbad]
  | cons p tail ih =>
    have hp : env.publishErrorOutput p = "" := hgood p (by simp)
    have := ih (fun q hq => hgood q (by simp [hq]))
    simp [publishLoop, publishPackageToNpm, hp, this]

/-- Normal form of the post-prompt phase, by case analysis on validation,
authentication and the final confirmation. -/
lemma afterPrompts_eq (env : Env) (v : Version) (t : List Event) :
    afterPrompts env v t =
      if env.releasePackages.any (fun p => !env.checkPackage p) then
        ⟨t ++ [Event.build] ++ env.releasePackages.map Event.checkPkg, some 1⟩
      else if !env.npmAuthenticated && !env.loginResult 0 then
        ⟨t ++ [Event.build] ++ env.releasePackages.map Event.checkPkg
          ++ [Event.createTag "HEAD" v.format]
          ++ [Event.checkAuth, Event.loginAttempt 0, Event.loginAttempt 1],
          some 1⟩
      else if env.confirmPublish then
        ⟨t ++ [Event.build] ++ env.releasePackages.map Event.checkPkg
          ++ [Event.createTag "HEAD" v.format]
          ++ (checkNpmAuthentication env).1 ++ [Event.promptConfirmPublish]
          ++ (publishLoop env env.releasePackages).1,
          (publishLoop env env.releasePackages).2⟩
      else
        ⟨t ++ [Event.build] ++ env.releasePackages.map Event.checkPkg
          ++ [Event.createTag "HEAD" v.format]
          ++ (checkNpmAuthentication env).1 ++ [Event.promptConfirmPublish],
          some 0⟩ := by
  by_cases hval : env.releasePackages.any (fun p => !env.checkPackage p) = true
  · simp [afterPrompts, checkReleaseOutput_eq, hval]
  · by_cases hauth : env.npmAuthenticated = true
    · by_cases hcp : env.confirmPublish = true <;>
        simp [afterPrompts, checkReleaseOutput_eq, checkNpmAuthentication_eq,
          hval, hauth, hcp]
    · by_cases hl0 : env.loginResult 0 = true
      · by_cases hcp : env.confirmPublish = true <;>
          simp [afterPrompts, checkReleaseOutput_eq, checkNpmAuthentication_eq,
            hval, hauth, hl0, hcp]
      · simp [afterPrompts, checkReleaseOutput_eq, checkNpmAuthentication_eq,
          hval, hauth, hl0]

/-- Normal form of the pre-build phase under passing preliminary checks. -/
lemma runTask_eq_afterPrompts (env : Env) (v : Version)
    (hv : env.parsedVersion = some v)
    (hc : env.hasUncommittedChanges = false)
    (hs : env.switchSucceeds = true)
    (hb : versionBumpMatches env.commitTitle = true)
    (hu : env.localMatchesUpstream = true) :
    runTask env =
      if env.npmDistTag == "next" && v.prereleaseLabel.isNone then
        if env.confirmStableNext then
          afterPrompts env v
            [Event.switchBranch, Event.promptDistTag, Event.promptStableNext]
        else
          ⟨[Event.switchBranch, Event.promptDistTag, Event.promptStableNext],
            some 0⟩
      else
        afterPrompts env v [Event.switchBranch, Event.promptDistTag] := by
  by_cases hsn : (env.npmDistTag == "next" && v.prereleaseLabel.isNone) = true
  · by_cases hcs : env.confirmStableNext = true <;>
      simp [runTask, hv, hc, hs, hb, hu, hsn, hcs]
  · simp [runTask, hv, hc, hs, hb, hu, hsn]

lemma mem_auth_trace (env : Env) (e : Event)
    (he : e ∈ (checkNpmAuthentication env).1) :
    e = Event.checkAuth ∨ ∃ i, e = Event.loginAttempt i := by
  rw [checkNpmAuthentication_eq] at he
  by_cases h0 : env.npmAuthenticated = true
  · simp [h0] at he
    exact Or.inl he
  · by_cases h1 : env.loginResult 0 = true <;> simp [h0, h1] at he <;>
      rcases he with he | he
    · exact Or.inl he
    · exact Or.inr ⟨0, he⟩
    · exact Or.inl he
    · rcases he with he | he
      · exact Or.inr ⟨0, he⟩
      · exact Or.inr ⟨1, he⟩

/-- The authentication step emits one of three concrete event lists. -/
lemma auth_trace_cases (env : Env) :
    (checkNpmAuthentication env).1 = [Event.checkAuth] ∨
    (checkNpmAuthentication env).1
      = [Event.checkAuth, Event.loginAttempt 0] ∨
    (checkNpmAuthentication env).1
      = [Event.checkAuth, Event.loginAttempt 0, Event.loginAttempt 1] := by
  rw [checkNpmAuthentication_eq]
  by_cases h0 : env.npmAuthenticated = true
  · simp [h0]
  · by_cases h1 : env.loginResult 0 = true <;> simp [h0, h1]

lemma psn_not_mem_pub (env : Env) :
    Event.promptStableNext ∉ (publishLoop env env.releasePackages).1 := by
  intro h
  rcases publishLoop_trace_shape env env.releasePackages _ h with ⟨p, hp⟩
  simp at hp

lemma pcp_not_mem_pub (env : Env) :
    Event.promptConfirmPublish ∉ (publishLoop env env.releasePackages).1 := by
  intro h
  rcases publishLoop_trace_shape env env.releasePackages _ h with ⟨p, hp⟩
  simp at hp

lemma psn_not_mem_auth (env : Env) :
    Event.promptStableNext ∉ (checkNpmAuthentication env).1 := by
  rcases auth_trace_cases env with ha | ha | ha <;> simp [ha]

lemma pcp_not_mem_auth (env : Env) :
    Event.promptConfirmPublish ∉ (checkNpmAuthentication env).1 := by
  rcases auth_trace_cases env with ha | ha | ha <;> simp [ha]

/-- The post-prompt phase never issues the stable-to-next prompt. -/
lemma psn_not_mem_afterPrompts (env : Env) (v : Version) (t : List Event)
    (ht : Event.promptStableNext ∉ t) :
    Event.promptStableNext ∉ (afterPrompts env v t).trace := by
  rw [afterPrompts_eq]
  split
  · simp [ht]
  · split
    · simp [ht]
    · split <;>
        simp [ht, psn_not_mem_auth env, psn_not_mem_pub env]

/-- The post-prompt phase exits with one of the three possible codes. -/
lemma afterPrompts_exit_cases (env : Env) (v : Version) (t : List Event) :
    (afterPrompts env v t).exitCode = none ∨
    (afterPrompts env v t).exitCode = some 0 ∨
    (afterPrompts env v t).exitCode = some 1 := by
  rw [afterPrompts_eq]
  split
  · simp
  · split
    · simp
    · split
      · rcases publishLoop_exit env env.releasePackages with h | h <;> simp [h]
      · simp

/-- Within the post-prompt phase, exit code 0 happens exactly by declining the
final confirmation prompt. -/
lemma afterPrompts_exit0_iff (env : Env) (v : Version) (t : List Event)
    (ht : Event.promptConfirmPublish ∉ t) :
    ((afterPrompts env v t).exitCode = some 0 ↔
      Event.promptConfirmPublish ∈ (afterPrompts env v t).trace ∧
        env.confirmPublish = false) := by
  rw [afterPrompts_eq]
  split
  · simp [ht]
  · split
    · simp [ht]
    · split
      · rename_i hcp
        rcases publishLoop_exit env env.releasePackages with h | h <;>
          simp [h, hcp]
      · rename_i hcp
        simp at hcp
        simp [hcp]

/-- Events already in the trace survive the post-prompt phase. -/
lemma mem_afterPrompts_of_mem (env : Env) (v : Version) (t : List Event)
    (e : Event) (he : e ∈ t) : e ∈ (afterPrompts env v t).trace := by
  rw [afterPrompts_eq]
  split
  · simp [he]
  · split
    · simp [he]
    · split <;> simp [he]

/-- Under passing preliminary checks and a passed (or skipped) stable-to-next
prompt, the run is the post-prompt phase over one of the two possible prompt
traces. -/
lemma runTask_reaches_build (env : Env) (v : Version)
    (hv : env.parsedVersion = some v)
    (hc : env.hasUncommittedChanges = false)
    (hs : env.switchSucceeds = true)
    (hb : versionBumpMatches env.commitTitle = true)
    (hu : env.localMatchesUpstream = true)
    (hsn : (env.npmDistTag == "next" && v.prereleaseLabel.isNone) = false
        ∨ env.confirmStableNext = true) :
    runTask env = afterPrompts env v [Event.switchBranch, Event.promptDistTag]
    ∨ runTask env = afterPrompts env v
        [Event.switchBranch, Event.promptDistTag, Event.promptStableNext] := by
  rw [runTask_eq_afterPrompts env v hv hc hs hb hu]
  cases h2 : (env.npmDistTag == "next" && v.prereleaseLabel.isNone)
  · simp
  · rcases hsn with h | h
    · rw [h2] at h
      exact absurd h (by simp)
    · simp [h]

lemma publishedPackages_append (t s : List Event) :
    publishedPackages (t ++ s) = publishedPackages t ++ publishedPackages s :=
  List.filterMap_append t s _

lemma publishedPackages_map_npmPublish (l : List String) :
    publishedPackages (l.map Event.npmPublish) = l := by
  induction l with
  | nil => rfl
  | cons p rest ih => simpa [publishedPackages] using ih

lemma publishedPackages_map_checkPkg (l : List String) :
    publishedPackages (l.map Event.checkPkg) = [] := by
  induction l with
  | nil => rfl
  | cons p rest ih => simp [publishedPackages, ih]

lemma publishedPackages_auth (env : Env) :
    publishedPackages (checkNpmAuthentication env).1 = [] := by
  rcases auth_trace_cases env with h | h | h <;> simp [h, publishedPackages]

/-- The publish loop publishes some prefix of the package list, in order. -/
lemma publishLoop_pub_list (env : Env) (l : List String) :
    ∃ lp, lp <+: l ∧ (publishLoop env l).1 = lp.map Event.npmPublish := by
  induction l with
  | nil => exact ⟨[], by simp, by simp [publishLoop]⟩
  | cons p rest ih =>
    by_cases h : env.publishErrorOutput p = ""
    · obtain ⟨lp, hlp, hm⟩ := ih
      obtain ⟨tl, htl⟩ := hlp
      refine ⟨p :: lp, ⟨tl, ?_⟩, ?_⟩
      · simp [htl]
      · simp [publishLoop, publishPackageToNpm, h, hm]
    · exact ⟨[p], ⟨rest, rfl⟩, by simp [publishLoop, publishPackageToNpm, h]⟩

lemma createTag_not_mem_auth (env : Env) (r n : String) :
    Event.createTag r n ∉ (checkNpmAuthentication env).1 := by
  rcases auth_trace_cases env with h | h | h <;> simp [h]

lemma createTag_not_mem_pub (env : Env) (r n : String) :
    Event.createTag r n ∉ (publishLoop env env.releasePackages).1 := by
  intro hmem
  rcases publishLoop_trace_shape env env.releasePackages _ hmem with ⟨p, hp⟩
  simp at hp

lemma deleteTag_not_mem_auth (env : Env) (n : String) :
    Event.deleteTag n ∉ (checkNpmAuthentication env).1 := by
  rcases auth_trace_cases env with h | h | h <;> simp [h]

lemma deleteTag_not_mem_pub (env : Env) (n : String) :
    Event.deleteTag n ∉ (publishLoop env env.releasePackages).1 := by
  intro hmem
  rcases publishLoop_trace_shape env env.releasePackages _ hmem with ⟨p, hp⟩
  simp at hp

/-- The post-prompt phase performs no tag-removal operation. -/
lemma deleteTag_not_mem_afterPrompts (env : Env) (v : Version) (t : List Event)
    (ht : ∀ n, Event.deleteTag n ∉ t) (n : String) :
    Event.deleteTag n ∉ (afterPrompts env v t).trace := by
  rw [afterPrompts_eq]
  split
  · simp [ht n]
  · split
    · simp [ht n]
    · split <;>
        simp [ht n, deleteTag_not_mem_auth env n, deleteTag_not_mem_pub env n]

/-- The whole workflow performs no tag-removal operation on any path. -/
lemma deleteTag_not_mem_runTask (env : Env) (n : String) :
    Event.deleteTag n ∉ (runTask env).trace := by
  cases hpv : env.parsedVersion with
  | none => simp [runTask, hpv]
  | some v =>
    cases h1 : env.hasUncommittedChanges
    · cases h2 : env.switchSucceeds
      · simp [runTask, hpv, h1, h2]
      · cases h3 : versionBumpMatches env.commitTitle
        · simp [runTask, hpv, h1, h2, h3]
        · cases h4 : env.localMatchesUpstream
          · simp [runTask, hpv, h1, h2, h3, h4]
          · have hr := runTask_eq_afterPrompts env v hpv h1 h2 h3 h4
            cases hsn : (env.npmDistTag == "next" && v.prereleaseLabel.isNone)
            · rw [if_neg (by simp [hsn])] at hr
              rw [hr]
              exact deleteTag_not_mem_afterPrompts env v _ (by simp) n
            · rw [if_pos hsn] at hr
              cases hcs : env.confirmStableNext
              · rw [if_neg (by simp [hcs])] at hr
                rw [hr]
                simp
              · rw [if_pos hcs] at hr
                rw [hr]
                exact deleteTag_not_mem_afterPrompts env v _ (by simp) n
    · simp [runTask, hpv, h1]

/-- Normal form of a run that reaches the publish loop. -/
lemma runTask_reaches_publish (env : Env) (v : Version)
    (hv : env.parsedVersion = some v)
    (hc : env.hasUncommittedChanges = false)
    (hs : env.switchSucceeds = true)
    (hb : versionBumpMatches env.commitTitle = true)
    (hu : env.localMatchesUpstream = true)
    (hsn : (env.npmDistTag == "next" && v.prereleaseLabel.isNone) = false
        ∨ env.confirmStableNext = true)
    (hval : ∀ p ∈ env.releasePackages, env.checkPackage p = true)
    (hauth : env.npmAuthenticated = true ∨ env.loginResult 0 = true)
    (hcp : env.confirmPublish = true) :
    publishedPackages (runTask env).trace
        = publishedPackages (publishLoop env env.releasePackages).1 ∧
      (runTask env).exitCode = (publishLoop env env.releasePackages).2 := by
  have hval2 : (env.releasePackages.any fun p => !env.checkPackage p)
      = false := by
    simp only [List.any_eq_false]
    intro p hp
    simp [hval p hp]
  have hauth2 : (!env.npmAuthenticated && !env.loginResult 0) = false := by
    rcases hauth with h | h <;> simp [h]
  rcases runTask_reaches_build env v hv hc hs hb hu hsn with hr | hr <;>
  · rw [hr, afterPrompts_eq, if_neg (by simp [hval2]),
      if_neg (by simp [hauth2]), if_pos hcp]
    refine ⟨?_, rfl⟩
    simp only [publishedPackages_append, publishedPackages_map_checkPkg,
      publishedPackages_auth]
    simp [publishedPackages]

/-! ### Concrete environments for witnesses -/

/-- An all-passing run: clean tree, version-bump commit, "latest" tag,
validations pass, npm authenticated, prompts answered yes, publishes clean. -/
def envBase : Env where
  parsedVersion := some ⟨6, 0, 0, none⟩
  hasUncommittedChanges := false
  switchSucceeds := true
  commitTitle := "chore: bump version to 6.0.0 w/ changelog"
  localMatchesUpstream := true
  npmDistTag := "latest"
  confirmStableNext := true
  releasePackages := ["cdk", "material"]
  checkPackage := fun _ => true
  npmAuthenticated := true
  loginResult := fun _ => true
  confirmPublish := true
  publishErrorOutput := fun _ => ""

/-- `envBase`, but npm is unauthenticated, the first interactive login fails
and the second succeeds. -/
def envAuthBug : Env :=
  { envBase with npmAuthenticated := false, loginResult := fun i => i == 1 }

/-- `envBase`, but the user chose the "next" dist tag and declines the extra
confirmation. -/
def envTagNext : Env :=
  { envBase with npmDistTag := "next", confirmStableNext := false }

/-- `envBase`, but the "material" package fails output validation. -/
def envValFail : Env :=
  { envBase with checkPackage := fun p => p != "material" }

/-! ### The claims -/

/-- C6: for every manifest version string on which `parseVersionName` fails,
the process terminates with exit code 1 during construction, before any
mutating action: no branch switch, no build, no tag creation, no publish. -/
theorem c6_unparseable_version_aborts_before_mutation (env : Env)
    (h : env.parsedVersion = none) :
    (runTask env).exitCode = some 1 ∧ (runTask env).trace = [] ∧
      Event.switchBranch ∉ (runTask env).trace ∧
      Event.build ∉ (runTask env).trace ∧
      (∀ r n, Event.createTag r n ∉ (runTask env).trace) ∧
      (∀ p, Event.npmPublish p ∉ (runTask env).trace) := by
  simp [runTask, h]

/-- Witness for C6 at a concrete unparseable-version environment. -/
theorem c6_witness :
    ({ envBase with parsedVersion := none } : Env).parsedVersion = none ∧
      (runTask { envBase with parsedVersion := none }).exitCode = some 1 ∧
      (runTask { envBase with parsedVersion := none }).trace = [] ∧
      Event.switchBranch
        ∉ (runTask { envBase with parsedVersion := none }).trace ∧
      Event.build ∉ (runTask { envBase with parsedVersion := none }).trace ∧
      (∀ r n, Event.createTag r n
        ∉ (runTask { envBase with parsedVersion := none }).trace) ∧
      (∀ p, Event.npmPublish p
        ∉ (runTask { envBase with parsedVersion := none }).trace) :=
  ⟨rfl, c6_unparseable_version_aborts_before_mutation
    { envBase with parsedVersion := none } rfl⟩

/-- C9: the version-bump regex test is an unanchored substring test: every
title containing "chore: bump version" anywhere (arbitrary prefix and suffix,
including none) is accepted. -/
theorem c9_version_bump_test_unanchored (pre post : String) :
    versionBumpMatches (pre ++ "chore: bump version" ++ post) = true := by
  simp only [versionBumpMatches, decide_eq_true_eq]
  exact ⟨pre.toList, post.toList, by simp [String.toList]⟩

/-- C5: the commit-title verification passes iff the title matches the
version-bump pattern; a non-matching title exits with code 1 right after the
branch switch, before the build step. -/
theorem c5_commit_title_gate (env : Env) (v : Version)
    (hv : env.parsedVersion = some v)
    (hc : env.hasUncommittedChanges = false)
    (hs : env.switchSucceeds = true) :
    (versionBumpMatches env.commitTitle = false →
      runTask env = ⟨[Event.switchBranch], some 1⟩) ∧
    (Event.build ∈ (runTask env).trace →
      versionBumpMatches env.commitTitle = true) := by
  constructor
  · intro hb
    simp [runTask, hv, hc, hs, hb]
  · intro hmem
    by_contra hb
    simp only [Bool.not_eq_true] at hb
    simp [runTask, hv, hc, hs, hb] at hmem

/-- Witness for C5 at a concrete non-bump commit title. -/
theorem c5_witness :
    ({ envBase with commitTitle := "feat: add feature" } : Env).parsedVersion
        = some ⟨6, 0, 0, none⟩ ∧
      versionBumpMatches
        ({ envBase with commitTitle := "feat: add feature" } : Env).commitTitle
        = false ∧
      runTask { envBase with commitTitle := "feat: add feature" }
        = ⟨[Event.switchBranch], some 1⟩ :=
  ⟨rfl, by decide,
    (c5_commit_title_gate { envBase with commitTitle := "feat: add feature" }
      ⟨6, 0, 0, none⟩ rfl rfl rfl).1 (by decide)⟩

/-- C1 (documents the code bug): when `isNpmAuthenticated()` is false, the
first `runInteractiveNpmLogin()` fails and the second succeeds, exactly two
login attempts are made and the second one succeeds — yet the process exits
with code 1 and never publishes, because `failedAuthentication` is never
cleared after a successful retry. -/
theorem c1_second_login_success_still_exits_1 :
    envAuthBug.npmAuthenticated = false ∧
      envAuthBug.loginResult 0 = false ∧ envAuthBug.loginResult 1 = true ∧
      checkNpmAuthentication envAuthBug
        = ([Event.checkAuth, Event.loginAttempt 0, Event.loginAttempt 1],
            some 1) ∧
      (runTask envAuthBug).exitCode = some 1 ∧
      (∀ p, Event.npmPublish p ∉ (runTask envAuthBug).trace) := by
  have h : runTask envAuthBug =
      ⟨[Event.switchBranch, Event.promptDistTag, Event.build,
        Event.checkPkg "cdk", Event.checkPkg "material",
        Event.createTag "HEAD" "6.0.0", Event.checkAuth,
        Event.loginAttempt 0, Event.loginAttempt 1], some 1⟩ := by
    decide
  refine ⟨rfl, rfl, rfl, by decide, ?_, ?_⟩
  · rw [h]
  · intro p
    rw [h]
    simp

/-- C4: if the prompted dist tag is "next" and the version has no pre-release
label, the extra yes/no confirmation is issued before building; answering no
exits with code 0, answering yes continues to the build step. -/
theorem c4_stable_to_next_confirmation (env : Env) (v : Version)
    (hv : env.parsedVersion = some v)
    (hc : env.hasUncommittedChanges = false)
    (hs : env.switchSucceeds = true)
    (hb : versionBumpMatches env.commitTitle = true)
    (hu : env.localMatchesUpstream = true)
    (ht : env.npmDistTag = "next")
    (hp : v.prereleaseLabel = none) :
    (env.confirmStableNext = false →
      runTask env = ⟨[Event.switchBranch, Event.promptDistTag,
        Event.promptStableNext], some 0⟩) ∧
    (env.confirmStableNext = true →
      (runTask env).trace.take 4 = [Event.switchBranch, Event.promptDistTag,
        Event.promptStableNext, Event.build]) := by
  rw [runTask_eq_afterPrompts env v hv hc hs hb hu]
  simp only [ht, hp, Option.isNone_none, beq_self_eq_true, Bool.and_self,
    if_true]
  constructor
  · intro hcs
    simp [hcs]
  · intro hcs
    simp only [hcs, if_true]
    rw [afterPrompts_eq]
    split
    · simp
    · split
      · simp
      · split <;> simp

/-- Witness for C4, declining and accepting at a concrete stable-to-next
environment. -/
theorem c4_witness :
    (envTagNext.confirmStableNext = false →
      runTask envTagNext
        = ⟨[Event.switchBranch, Event.promptDistTag, Event.promptStableNext],
            some 0⟩) ∧
    (envTagNext.confirmStableNext = true →
      (runTask envTagNext).trace.take 4
        = [Event.switchBranch, Event.promptDistTag, Event.promptStableNext,
            Event.build]) :=
  c4_stable_to_next_confirmation envTagNext
    ⟨6, 0, 0, none⟩ rfl rfl rfl (by decide) rfl rfl rfl

/-- C10: the extra stable-to-next confirmation is issued exactly when the
chosen dist tag is the string "next" and the version has no pre-release
label; in every other case the workflow goes directly from the dist-tag
prompt to the build step. -/
theorem c10_extra_prompt_iff_stable_next (env : Env) (v : Version)
    (hv : env.parsedVersion = some v)
    (hc : env.hasUncommittedChanges = false)
    (hs : env.switchSucceeds = true)
    (hb : versionBumpMatches env.commitTitle = true)
    (hu : env.localMatchesUpstream = true) :
    (Event.promptStableNext ∈ (runTask env).trace ↔
      (env.npmDistTag = "next" ∧ v.prereleaseLabel = none)) ∧
    (¬(env.npmDistTag = "next" ∧ v.prereleaseLabel = none) →
      (runTask env).trace.take 3
        = [Event.switchBranch, Event.promptDistTag, Event.build]) := by
  rw [runTask_eq_afterPrompts env v hv hc hs hb hu]
  cases hsn : (env.npmDistTag == "next" && v.prereleaseLabel.isNone)
  · have hcond : ¬(env.npmDistTag = "next" ∧ v.prereleaseLabel = none) := by
      intro ⟨h1, h2⟩
      simp [h1, h2] at hsn
    simp only [if_false, Bool.false_eq_true]
    constructor
    · constructor
      · intro hmem
        exact absurd hmem (psn_not_mem_afterPrompts env v _ (by simp))
      · intro h
        exact absurd h hcond
    · intro _
      rw [afterPrompts_eq]
      split
      · simp
      · split
        · simp
        · split <;> simp
  · have hcond : env.npmDistTag = "next" ∧ v.prereleaseLabel = none := by
      simp only [Bool.and_eq_true, beq_iff_eq, Option.isNone_iff_eq_none]
        at hsn
      exact hsn
    simp only [if_true]
    constructor
    · constructor
      · intro _
        exact hcond
      · intro _
        cases hcs : env.confirmStableNext
        · simp [hcs]
        · simp only [hcs, if_true]
          exact mem_afterPrompts_of_mem env v _ _ (by simp)
    · intro h
      exact absurd hcond h

/-- Witness for C10 at a concrete non-"next" environment. -/
theorem c10_witness :
    (Event.promptStableNext ∈ (runTask envBase).trace ↔
      (envBase.npmDistTag = "next" ∧
        (⟨6, 0, 0, none⟩ : Version).prereleaseLabel = none)) ∧
    (¬(envBase.npmDistTag = "next" ∧
        (⟨6, 0, 0, none⟩ : Version).prereleaseLabel = none) →
      (runTask envBase).trace.take 3
        = [Event.switchBranch, Event.promptDistTag, Event.build]) :=
  c10_extra_prompt_iff_stable_next envBase ⟨6, 0, 0, none⟩ rfl rfl rfl
    (by decide) rfl

/-- C3: if any release-output validation fails, the process exits with code 1
after evaluating the check for every package, and no package is published in
that run. -/
theorem c3_validation_failure_blocks_publish (env : Env) (v : Version)
    (hv : env.parsedVersion = some v)
    (hc : env.hasUncommittedChanges = false)
    (hs : env.switchSucceeds = true)
    (hb : versionBumpMatches env.commitTitle = true)
    (hu : env.localMatchesUpstream = true)
    (hsn : (env.npmDistTag == "next" && v.prereleaseLabel.isNone) = false
        ∨ env.confirmStableNext = true)
    (hfail : ∃ p ∈ env.releasePackages, env.checkPackage p = false) :
    (runTask env).exitCode = some 1 ∧
    (∀ p ∈ env.releasePackages, Event.checkPkg p ∈ (runTask env).trace) ∧
    (∀ p, Event.npmPublish p ∉ (runTask env).trace) := by
  have hval : (env.releasePackages.any fun p => !env.checkPackage p) = true :=
    by
    rcases hfail with ⟨p, hp, hcp⟩
    simp only [List.any_eq_true, Bool.not_eq_true']
    exact ⟨p, hp, hcp⟩
  rcases runTask_reaches_build env v hv hc hs hb hu hsn with hr | hr <;>
  · rw [hr, afterPrompts_eq, if_pos hval]
    refine ⟨rfl, ?_, ?_⟩
    · intro p hp
      exact List.mem_append.mpr (Or.inr (List.mem_map_of_mem _ hp))
    · intro p
      simp

/-- Witness for C3 at a concrete environment whose second package fails
validation. -/
theorem c3_witness :
    (∃ p ∈ envValFail.releasePackages, envValFail.checkPackage p = false) ∧
    (runTask envValFail).exitCode = some 1 ∧
    (∀ p ∈ envValFail.releasePackages,
      Event.checkPkg p ∈ (runTask envValFail).trace) ∧
    (∀ p, Event.npmPublish p ∉ (runTask envValFail).trace) :=
  ⟨⟨"material", by decide, by decide⟩,
    c3_validation_failure_blocks_publish envValFail
      ⟨6, 0, 0, none⟩ rfl rfl rfl (by decide) rfl (Or.inl (by decide))
      ⟨"material", by decide, by decide⟩⟩

/-- `envBase`, but `runNpmPublish` fails for the "material" package. -/
def envPubFail : Env :=
  { envBase with
      publishErrorOutput := fun p => if p == "material" then "E404" else "" }

/-- C2: a run reaching the publish phase publishes a prefix of the static
package list in its fixed order: the whole list when all publish calls return
empty error output; otherwise up to and including the first failing package,
then exit code 1, no later package, and no tag rollback. -/
theorem c2_publish_prefix_in_order (env : Env) (v : Version)
    (hv : env.parsedVersion = some v)
    (hc : env.hasUncommittedChanges = false)
    (hs : env.switchSucceeds = true)
    (hb : versionBumpMatches env.commitTitle = true)
    (hu : env.localMatchesUpstream = true)
    (hsn : (env.npmDistTag == "next" && v.prereleaseLabel.isNone) = false
        ∨ env.confirmStableNext = true)
    (hval : ∀ p ∈ env.releasePackages, env.checkPackage p = true)
    (hauth : env.npmAuthenticated = true ∨ env.loginResult 0 = true)
    (hcp : env.confirmPublish = true) :
    (∃ l, l <+: env.releasePackages ∧
      publishedPackages (runTask env).trace = l) ∧
    ((∀ p ∈ env.releasePackages, env.publishErrorOutput p = "") →
      publishedPackages (runTask env).trace = env.releasePackages ∧
        (runTask env).exitCode = none) ∧
    (∀ good bad rest, env.releasePackages = good ++ bad :: rest →
      (∀ p ∈ good, env.publishErrorOutput p = "") →
      env.publishErrorOutput bad ≠ "" →
      publishedPackages (runTask env).trace = good ++ [bad] ∧
        (runTask env).exitCode = some 1) ∧
    (∀ n, Event.deleteTag n ∉ (runTask env).trace) := by
  obtain ⟨hpp, hec⟩ :=
    runTask_reaches_publish env v hv hc hs hb hu hsn hval hauth hcp
  refine ⟨?_, ?_, ?_, fun n => deleteTag_not_mem_runTask env n⟩
  · obtain ⟨lp, hlp, hm⟩ :=
      publishLoop_pub_list env env.releasePackages
    exact ⟨lp, hlp, by rw [hpp, hm, publishedPackages_map_npmPublish]⟩
  · intro hok
    rw [hpp, hec, publishLoop_all_ok env env.releasePackages hok]
    exact ⟨publishedPackages_map_npmPublish env.releasePackages, rfl⟩
  · intro good bad rest hsplit hgood hbad
    rw [hpp, hec, hsplit, publishLoop_first_bad env good bad rest hgood hbad]
    exact ⟨publishedPackages_map_npmPublish (good ++ [bad]), rfl⟩

/-- Witness for C2: the second of two packages fails to publish; exactly the
first two packages saw a publish call and the run exits with code 1. -/
theorem c2_witness :
    envPubFail.confirmPublish = true ∧
      publishedPackages (runTask envPubFail).trace = ["cdk", "material"] ∧
      (runTask envPubFail).exitCode = some 1 :=
  ⟨rfl,
    (c2_publish_prefix_in_order envPubFail ⟨6, 0, 0, none⟩ rfl rfl rfl
        (by decide) rfl (Or.inl (by decide)) (by decide) (Or.inl rfl)
        rfl).2.2.1 ["cdk"] "material" [] rfl (by decide) (by decide)⟩

/-- `envBase`, but the user declines the final confirmation prompt. -/
def envDecline : Env := { envBase with confirmPublish := false }

/-- C8: the release tag (named after the formatted version, at HEAD) is
created exactly once, strictly before the authentication check, the final
confirmation prompt and every publish call, and no later failure or abort
path removes it. -/
theorem c8_tag_once_before_auth_confirm_publish (env : Env) (v : Version)
    (hv : env.parsedVersion = some v)
    (hc : env.hasUncommittedChanges = false)
    (hs : env.switchSucceeds = true)
    (hb : versionBumpMatches env.commitTitle = true)
    (hu : env.localMatchesUpstream = true)
    (hsn : (env.npmDistTag == "next" && v.prereleaseLabel.isNone) = false
        ∨ env.confirmStableNext = true)
    (hval : ∀ p ∈ env.releasePackages, env.checkPackage p = true) :
    (∃ t1 t2,
      (runTask env).trace = t1 ++ Event.createTag "HEAD" v.format :: t2 ∧
      (∀ r n, Event.createTag r n ∉ t1) ∧
      (∀ r n, Event.createTag r n ∉ t2) ∧
      Event.checkAuth ∉ t1 ∧ (∀ i, Event.loginAttempt i ∉ t1) ∧
      Event.promptConfirmPublish ∉ t1 ∧
      (∀ p, Event.npmPublish p ∉ t1)) ∧
    (∀ n, Event.deleteTag n ∉ (runTask env).trace) := by
  have hval2 : (env.releasePackages.any fun p => !env.checkPackage p)
      = false := by
    simp only [List.any_eq_false]
    intro p hp
    simp [hval p hp]
  refine ⟨?_, fun n => deleteTag_not_mem_runTask env n⟩
  have hex : ∃ t0, runTask env = afterPrompts env v t0 ∧
      ∀ e ∈ t0, e = Event.switchBranch ∨ e = Event.promptDistTag ∨
        e = Event.promptStableNext := by
    rcases runTask_reaches_build env v hv hc hs hb hu hsn with hr | hr
    · refine ⟨_, hr, ?_⟩
      intro e he
      simp at he
      rcases he with h | h <;> simp [h]
    · refine ⟨_, hr, ?_⟩
      intro e he
      simp at he
      rcases he with h | h | h <;> simp [h]
  obtain ⟨t0, hr, ht0⟩ := hex
  set t1 : List Event :=
    t0 ++ [Event.build] ++ env.releasePackages.map Event.checkPkg with ht1
  have hmem5 : ∀ e ∈ t1, e = Event.switchBranch ∨ e = Event.promptDistTag ∨
      e = Event.promptStableNext ∨ e = Event.build ∨
      ∃ p, e = Event.checkPkg p := by
    intro e he
    rcases List.mem_append.mp he with he | he
    · rcases List.mem_append.mp he with he | he
      · rcases ht0 _ he with h | h | h <;> simp [h]
      · simp at he
        simp [he]
    · rcases List.mem_map.mp he with ⟨p, _, hp⟩
      exact Or.inr (Or.inr (Or.inr (Or.inr ⟨p, hp.symm⟩)))
  have hct : ∀ r n, Event.createTag r n ∉ t1 := by
    intro r n hm
    rcases hmem5 _ hm with h | h | h | h | ⟨p, hp⟩ <;> simp_all
  have hca : Event.checkAuth ∉ t1 := by
    intro hm
    rcases hmem5 _ hm with h | h | h | h | ⟨p, hp⟩ <;> simp_all
  have hla : ∀ i, Event.loginAttempt i ∉ t1 := by
    intro i hm
    rcases hmem5 _ hm with h | h | h | h | ⟨p, hp⟩ <;> simp_all
  have hpc : Event.promptConfirmPublish ∉ t1 := by
    intro hm
    rcases hmem5 _ hm with h | h | h | h | ⟨p, hp⟩ <;> simp_all
  have hnp : ∀ p, Event.npmPublish p ∉ t1 := by
    intro p hm
    rcases hmem5 _ hm with h | h | h | h | ⟨q, hq⟩ <;> simp_all
  rw [hr, afterPrompts_eq, if_neg (by simp [hval2])]
  split
  · exact ⟨t1, [Event.checkAuth, Event.loginAttempt 0, Event.loginAttempt 1],
      by simp [ht1], hct, by intro r n; simp, hca, hla, hpc, hnp⟩
  · split
    · refine ⟨t1, (checkNpmAuthentication env).1
          ++ [Event.promptConfirmPublish]
          ++ (publishLoop env env.releasePackages).1,
        by simp [ht1], hct, ?_, hca, hla, hpc, hnp⟩
      intro r n
      simp [createTag_not_mem_auth env r n, createTag_not_mem_pub env r n]
    · refine ⟨t1, (checkNpmAuthentication env).1
          ++ [Event.promptConfirmPublish],
        by simp [ht1], hct, ?_, hca, hla, hpc, hnp⟩
      intro r n
      simp [createTag_not_mem_auth env r n]

/-- Witness for C8 at a concrete run whose final confirmation is declined:
the tag was already created and is left in place. -/
theorem c8_witness :
    (∃ t1 t2,
      (runTask envDecline).trace
        = t1 ++ Event.createTag "HEAD" (Version.format ⟨6, 0, 0, none⟩) :: t2 ∧
      (∀ r n, Event.createTag r n ∉ t1) ∧
      (∀ r n, Event.createTag r n ∉ t2) ∧
      Event.checkAuth ∉ t1 ∧ (∀ i, Event.loginAttempt i ∉ t1) ∧
      Event.promptConfirmPublish ∉ t1 ∧
      (∀ p, Event.npmPublish p ∉ t1)) ∧
    (∀ n, Event.deleteTag n ∉ (runTask envDecline).trace) :=
  c8_tag_once_before_auth_confirm_publish envDecline ⟨6, 0, 0, none⟩ rfl rfl
    rfl (by decide) rfl (Or.inl (by decide)) (by decide)

/-- C7: every run terminates with code 0 or 1 (`none` means the process falls
off the end of `run()` and exits 0), and `process.exit(0)` happens exactly
when the user answers "no" to one of the two yes/no confirmation prompts;
every other abort uses exit code 1. -/
theorem c7_exit_code_0_iff_success_or_decline (env : Env) :
    ((runTask env).exitCode = none ∨ (runTask env).exitCode = some 0 ∨
      (runTask env).exitCode = some 1) ∧
    ((runTask env).exitCode = some 0 ↔
      ((Event.promptStableNext ∈ (runTask env).trace ∧
          env.confirmStableNext = false) ∨
        (Event.promptConfirmPublish ∈ (runTask env).trace ∧
          env.confirmPublish = false))) := by
  cases hpv : env.parsedVersion with
  | none => simp [runTask, hpv]
  | some v =>
    cases h1 : env.hasUncommittedChanges
    · cases h2 : env.switchSucceeds
      · simp [runTask, hpv, h1, h2]
      · cases h3 : versionBumpMatches env.commitTitle
        · simp [runTask, hpv, h1, h2, h3]
        · cases h4 : env.localMatchesUpstream
          · simp [runTask, hpv, h1, h2, h3, h4]
          · have hr := runTask_eq_afterPrompts env v hpv h1 h2 h3 h4
            cases hsn : (env.npmDistTag == "next" && v.prereleaseLabel.isNone)
            · rw [if_neg (by simp [hsn])] at hr
              rw [hr]
              refine ⟨afterPrompts_exit_cases env v _, ?_⟩
              rw [afterPrompts_exit0_iff env v _ (by simp)]
              simp [psn_not_mem_afterPrompts env v
                [Event.switchBranch, Event.promptDistTag] (by simp)]
            · rw [if_pos hsn] at hr
              cases hcs : env.confirmStableNext
              · rw [if_neg (by simp [hcs])] at hr
                rw [hr]
                simp [hcs]
              · rw [if_pos hcs] at hr
                rw [hr]
                refine ⟨afterPrompts_exit_cases env v _, ?_⟩
                rw [afterPrompts_exit0_iff env v _ (by simp)]
                simp [hcs]
    · simp [runTask, hpv, h1]

end PublishRelease
